import Mathlib

/-!
Shallow embedding of the courier-software-suite dispatch-and-tracking core.

The definitions below translate the JavaScript/TypeScript source:
 - `src/backend/routes/orders.js` (pricing, assignment, status transition,
   rating and cancellation handlers),
 - the Mongoose order schema with its `addTrackingUpdate` method,
 - the tracking router (location report, custom update, proof upload, ETA).

Machine numbers are modelled as `ℚ` (monetary amounts, coordinates, rating
averages) and `ℝ` (trigonometric ETA math); timestamps are epoch naturals,
the ETA clock is an epoch-millisecond integer.  Fallible request handlers
return `Except ApiError _`.
-/

namespace Courier

/-- Order lifecycle states, from the `status` enum of the order schema. -/
inductive OrderStatus
  | pending
  | assigned
  | picked_up
  | in_transit
  | delivered
  | cancelled
  | failed
deriving DecidableEq, Repr

/-- Order priority levels, from the `priority` enum of the order schema. -/
inductive Priority
  | standard
  | express
  | urgent
deriving DecidableEq, Repr

/-- User roles, from the `role` enum of the user schema. -/
inductive Role
  | customer
  | courier
  | admin
deriving DecidableEq, Repr

/-- A latitude/longitude pair, as stored in `coordinates` subdocuments. -/
structure Coord where
  lat : ℚ
  lng : ℚ
deriving DecidableEq, Repr

/-- A postal address, from the `address` subdocument of a location. -/
structure Address where
  street : String
  city : String
  state : String
  zipCode : String
deriving DecidableEq, Repr

/-- A pickup or delivery location of an order. -/
structure LocationDetails where
  address : Address
  coordinates : Coord
  contactName : String
  contactPhone : String
  instructions : Option String
deriving DecidableEq, Repr

/-- Package descriptor of an order. -/
structure PackageDetails where
  description : String
  weight : ℚ
  value : Option ℚ
  fragile : Bool
  category : String
deriving DecidableEq, Repr

/-- Derived pricing of an order (`pricing` subdocument). -/
structure Pricing where
  baseFare : ℚ
  distanceFare : ℚ
  priorityFare : ℚ
  totalAmount : ℚ
deriving DecidableEq, Repr

/-- One element of the `tracking` array of an order. -/
structure TrackingEvent where
  status : OrderStatus
  timestamp : ℕ
  location : Option Coord
  notes : Option String
deriving DecidableEq, Repr

/-- Per-order rating record (`rating` subdocument of the order schema). -/
structure OrderRating where
  customerRating : Option ℕ
  courierRating : Option ℕ
  customerFeedback : Option String
  courierFeedback : Option String
deriving DecidableEq, Repr

/-- A delivery-proof image reference (`images` array element). -/
structure OrderImage where
  url : String
  timestamp : ℕ
  description : String
deriving DecidableEq, Repr

/-- A courier's last reported position (`currentLocation` of the user schema). -/
structure CourierLoc where
  lat : ℚ
  lng : ℚ
  lastUpdated : ℕ
deriving DecidableEq, Repr

/-- The fields of a user document that the routed handlers consult:
identity, role, courier vehicle/availability/position, aggregate rating. -/
structure User where
  id : String
  name : String
  role : Role
  vehicle : String
  isAvailable : Bool
  currentLocation : Option CourierLoc
  ratingAverage : ℚ
  ratingCount : ℕ
deriving DecidableEq, Repr

/-- The order document of the Mongoose order schema. -/
structure Order where
  orderNumber : String
  customer : String
  courier : Option String
  pickupLocation : LocationDetails
  deliveryLocation : LocationDetails
  packageDetails : PackageDetails
  status : OrderStatus
  priority : Priority
  pricing : Pricing
  estimatedPickup : Option ℕ
  estimatedDelivery : Option ℕ
  actualPickup : Option ℕ
  actualDelivery : Option ℕ
  tracking : List TrackingEvent
  rating : OrderRating
  paymentStatus : String
  paymentMethod : String
  images : List OrderImage
  notes : Option String
deriving DecidableEq, Repr

/-- Rounding of a rational to two decimal places, as `parseFloat(x.toFixed(2))`
behaves on the non-negative amounts this code produces: round to the nearest
cent, half away from zero (the larger candidate in the ECMAScript `toFixed`
tie rule). -/
def round2 (q : ℚ) : ℚ :=
  (⌊q * 100 + 1 / 2⌋ : ℚ) / 100

/-- Pricing computation of `calculatePricing` in `routes/orders.js`: base fare
5.00, per-kilometer rate 1.50, priority surcharge 50% / 100% of the base fare
for express / urgent, and each returned field passed through
`parseFloat(x.toFixed(2))`.  Note the source computes `totalAmount` from the
unrounded components and rounds that sum. -/
def calculatePricing (distance : ℚ) (priority : Priority) : Pricing :=
  let baseFare : ℚ := 5
  let perKmRate : ℚ := 3 / 2
  let distanceFare := distance * perKmRate
  let priorityFare : ℚ :=
    match priority with
    | .express => baseFare * (1 / 2)
    | .urgent => baseFare * 1
    | .standard => 0
  let totalAmount := baseFare + distanceFare + priorityFare
  { baseFare := round2 baseFare
    distanceFare := round2 distanceFare
    priorityFare := round2 priorityFare
    totalAmount := round2 totalAmount }

/-- Shifting the argument of `round2` by a whole number of cents shifts the
result by exactly those cents. -/
lemma round2_add_cents (q : ℚ) (n : ℤ) :
    round2 (q + (n : ℚ) / 100) = round2 q + (n : ℚ) / 100 := by
  unfold round2
  have h1 : (q + (n : ℚ) / 100) * 100 + 1 / 2 = (q * 100 + 1 / 2) + (n : ℚ) := by
    ring
  rw [h1, Int.floor_add_int]
  push_cast
  ring

/-- `round2` maps zero to zero. -/
lemma round2_zero : round2 0 = 0 := by
  unfold round2
  have h0 : ⌊(0 : ℚ) * 100 + 1 / 2⌋ = 0 := by
    rw [Int.floor_eq_zero_iff]
    constructor <;> norm_num
  rw [h0]
  norm_num

/-- `round2` fixes every whole number of cents. -/
lemma round2_cents (n : ℤ) : round2 ((n : ℚ) / 100) = (n : ℚ) / 100 := by
  have h := round2_add_cents 0 n
  rw [zero_add, round2_zero, zero_add] at h
  exact h

/-- Error outcomes of the routed handlers, one constructor per distinct
non-500 error response in `routes/orders.js` and the tracking router. -/
inductive ApiError
  | notFound
  | validationFailed
  | notAuthorized
  | orderNotAvailableForAssignment
  | orderAlreadyAssigned
  | courierNotAvailable
  | invalidTransition (currentStatus requestedStatus : OrderStatus)
  | canOnlyRateCompleted
  | alreadyRated
  | cannotCancelAtStage
deriving DecidableEq, Repr

/-- The response message string the source attaches to each error. -/
def ApiError.message : ApiError → String
  | .notFound => "Order not found"
  | .validationFailed => "Validation failed"
  | .notAuthorized => "Not authorized"
  | .orderNotAvailableForAssignment => "Order is not available for assignment"
  | .orderAlreadyAssigned => "Order already assigned to another courier"
  | .courierNotAvailable => "You must be available to accept orders"
  | .invalidTransition _ _ => "Cannot change status"
  | .canOnlyRateCompleted => "Can only rate completed orders"
  | .alreadyRated => "You have already rated this order"
  | .cannotCancelAtStage => "Order cannot be cancelled at this stage"

/-- The spec's §7 error taxonomy folds both 400 responses of the claim
endpoint (non-pending status, courier already set) into `AlreadyAssigned`. -/
def ApiError.isAlreadyAssigned : ApiError → Bool
  | .orderNotAvailableForAssignment => true
  | .orderAlreadyAssigned => true
  | _ => false

/-- Whether an `Except` result is a success. -/
def isOk {ε α : Type} : Except ε α → Bool
  | .ok _ => true
  | .error _ => false

/-- The `addTrackingUpdate` method of the order schema: push one tracking
entry stamped with the current time and set the order status to the entry's
status. -/
def Order.addTrackingUpdate (o : Order) (status : OrderStatus)
    (location : Option Coord) (notes : Option String) (now : ℕ) : Order :=
  { o with
    tracking := o.tracking ++ [⟨status, now, location, notes⟩]
    status := status }

/-- The `PATCH /orders/:id/assign` handler (with its `requireCourier`
middleware): reject non-courier callers, then reject unless the order is
`pending` with no courier, then reject an unavailable courier; on success set
the courier and status `assigned` and append a tracking entry located at the
courier's current position. -/
def assignOrder (o : Order) (caller : User) (now : ℕ) : Except ApiError Order :=
  if caller.role ≠ .courier then .error .notAuthorized
  else if o.status ≠ .pending then .error .orderNotAvailableForAssignment
  else if o.courier.isSome then .error .orderAlreadyAssigned
  else if ¬ caller.isAvailable then .error .courierNotAvailable
  else
    .ok (Order.addTrackingUpdate
      { o with courier := some caller.id, status := .assigned }
      .assigned
      (caller.currentLocation.map fun l => ⟨l.lat, l.lng⟩)
      (some ("Order assigned to courier " ++ caller.name))
      now)

/-- The `validTransitions` table of the `PATCH /orders/:id/status` handler.
The table has no entry for `delivered`, `cancelled` or `failed`; the source
guard `validTransitions[order.status] && ...` therefore skips the check for
those current statuses, which `none` models here. -/
def validTransitions : OrderStatus → Option (List OrderStatus)
  | .assigned => some [.picked_up, .cancelled]
  | .picked_up => some [.in_transit, .cancelled]
  | .in_transit => some [.delivered, .failed]
  | .pending => some [.cancelled]
  | _ => none

/-- The request-body validation of the status route:
`body('status').isIn(['picked_up', 'in_transit', 'delivered', 'cancelled',
'failed'])`. -/
def requestableStatuses : List OrderStatus :=
  [.picked_up, .in_transit, .delivered, .cancelled, .failed]

/-- The `PATCH /orders/:id/status` handler: body validation, then
authorization (admin, the assigned courier, or the customer when requesting
`cancelled`), then the transition-table guard, then actual-time stamping and
`addTrackingUpdate`. -/
def updateStatusOrder (o : Order) (caller : User) (requested : OrderStatus)
    (notes : Option String) (location : Option Coord) (now : ℕ) :
    Except ApiError Order :=
  if requested ∉ requestableStatuses then .error .validationFailed
  else if ¬ (caller.role = .admin ∨ o.courier = some caller.id ∨
      (requested = .cancelled ∧ o.customer = caller.id)) then
    .error .notAuthorized
  else if (validTransitions o.status).isSome ∧
      requested ∉ (validTransitions o.status).getD [] then
    .error (.invalidTransition o.status requested)
  else
    let o1 :=
      if requested = .picked_up then { o with actualPickup := some now }
      else if requested = .delivered then { o with actualDelivery := some now }
      else o
    .ok (o1.addTrackingUpdate requested location notes now)

/-- The aggregate-rating update the rate handler performs on the rated
party's user document: bump the count and store the rolling average rounded
through `parseFloat(newAverage.toFixed(2))`. -/
def applyRating (u : User) (score : ℕ) : User :=
  let newCount := u.ratingCount + 1
  let newAverage :=
    (u.ratingAverage * (u.ratingCount : ℚ) + (score : ℚ)) / (newCount : ℚ)
  { u with ratingAverage := round2 newAverage, ratingCount := newCount }

/-- The `PATCH /orders/:id/rate` handler.  `ratedProfile` stands for the user
document the handler fetches with `User.findById` for the party being rated
(the courier when the customer rates, the customer when the courier rates);
the returned `Option User` is that document after the side-effecting save,
`none` when no profile was updated. -/
def rateOrder (o : Order) (caller : User) (ratedProfile : User) (score : ℕ)
    (feedback : Option String) : Except ApiError (Order × Option User) :=
  if ¬ (1 ≤ score ∧ score ≤ 5) then .error .validationFailed
  else if o.status ≠ .delivered then .error .canOnlyRateCompleted
  else if o.customer = caller.id then
    if (o.rating.customerRating).isSome then .error .alreadyRated
    else
      let o1 := { o with rating :=
        { o.rating with customerRating := some score
                        customerFeedback := feedback } }
      if o.courier.isSome then .ok (o1, some (applyRating ratedProfile score))
      else .ok (o1, none)
  else if o.courier = some caller.id then
    if (o.rating.courierRating).isSome then .error .alreadyRated
    else
      let o1 := { o with rating :=
        { o.rating with courierRating := some score
                        courierFeedback := feedback } }
      .ok (o1, some (applyRating ratedProfile score))
  else .error .notAuthorized

/-- The `PATCH /orders/:id/cancel` handler: authorization (admin, customer or
assigned courier), then the guard `['pending', 'assigned'].includes(status)`,
then `addTrackingUpdate('cancelled', null, reason || 'Order cancelled')`. -/
def cancelOrder (o : Order) (caller : User) (reason : Option String)
    (now : ℕ) : Except ApiError Order :=
  if ¬ (caller.role = .admin ∨ o.customer = caller.id ∨
      o.courier = some caller.id) then
    .error .notAuthorized
  else if ¬ (o.status = .pending ∨ o.status = .assigned) then
    .error .cannotCancelAtStage
  else
    .ok (o.addTrackingUpdate .cancelled none
      (some (reason.getD "Order cancelled")) now)

/-- The `PATCH /tracking/:orderNumber/location` handler (with its
`requireCourier` middleware): validate the coordinate ranges, require the
caller to be the assigned courier, overwrite the caller's `currentLocation`,
and push one tracking entry carrying the order's current status.  The push is
direct (`order.tracking.push`), so the order status is untouched. -/
def reportLocation (o : Order) (caller : User) (lat lng : ℚ) (now : ℕ) :
    Except ApiError (Order × User) :=
  if caller.role ≠ .courier then .error .notAuthorized
  else if ¬ (-90 ≤ lat ∧ lat ≤ 90 ∧ -180 ≤ lng ∧ lng ≤ 180) then
    .error .validationFailed
  else if o.courier ≠ some caller.id then .error .notAuthorized
  else
    let caller1 := { caller with currentLocation := some ⟨lat, lng, now⟩ }
    let event : TrackingEvent :=
      ⟨o.status, now, some ⟨lat, lng⟩, some "Location updated"⟩
    .ok ({ o with tracking := o.tracking ++ [event] }, caller1)

/-- The `POST /tracking/:orderNumber/update` handler: an assigned courier
pushes one free-text tracking entry carrying the order's current status,
located at the given coordinate or, by default, the courier's position. -/
def addCustomUpdate (o : Order) (caller : User) (notesText : String)
    (location : Option Coord) (now : ℕ) : Except ApiError Order :=
  if caller.role ≠ .courier then .error .notAuthorized
  else if notesText = "" then .error .validationFailed
  else if o.courier ≠ some caller.id then .error .notAuthorized
  else
    let loc : Option Coord := match location with
      | some l => some l
      | none => caller.currentLocation.map fun l => ⟨l.lat, l.lng⟩
    .ok { o with tracking :=
      o.tracking ++ [⟨o.status, now, loc, some notesText⟩] }

/-- The `POST /tracking/:orderNumber/proof` handler: an assigned courier
appends one image and one tracking entry via `addTrackingUpdate` at the
order's current status. -/
def uploadProof (o : Order) (caller : User) (imageUrl : String)
    (description : Option String) (now : ℕ) : Except ApiError Order :=
  if caller.role ≠ .courier then .error .notAuthorized
  else if o.courier ≠ some caller.id then .error .notAuthorized
  else
    let newImage : OrderImage := ⟨imageUrl, now, description.getD "Delivery proof"⟩
    let o1 := { o with images := o.images ++ [newImage] }
    .ok (o1.addTrackingUpdate o.status
      (caller.currentLocation.map fun l => (⟨l.lat, l.lng⟩ : Coord))
      (some ("Delivery proof uploaded: " ++ description.getD "Image")) now)

/-- Two-argument arctangent as `Math.atan2(y, x)` behaves on real inputs. -/
noncomputable def atan2 (y x : ℝ) : ℝ :=
  if 0 < x then Real.arctan (y / x)
  else if x < 0 then
    if 0 ≤ y then Real.arctan (y / x) + Real.pi
    else Real.arctan (y / x) - Real.pi
  else if 0 < y then Real.pi / 2
  else if y < 0 then -(Real.pi / 2)
  else 0

/-- The haversine great-circle distance in kilometres, as inlined both in the
order schema's `calculateDistance` method and in the ETA route: Earth radius
6371 km, angle via `atan2(sqrt a, sqrt (1 - a))`. -/
noncomputable def haversineKm (lat1 lng1 lat2 lng2 : ℝ) : ℝ :=
  let r : ℝ := 6371
  let dLat := (lat2 - lat1) * Real.pi / 180
  let dLon := (lng2 - lng1) * Real.pi / 180
  let a :=
    Real.sin (dLat / 2) * Real.sin (dLat / 2) +
      Real.cos (lat1 * Real.pi / 180) * Real.cos (lat2 * Real.pi / 180) *
        (Real.sin (dLon / 2) * Real.sin (dLon / 2))
  let c := 2 * atan2 (Real.sqrt a) (Real.sqrt (1 - a))
  r * c

/-- The `speedMap` lookup of the ETA route, `speedMap[vehicle] || 25`:
bike 15, motorcycle 25, car 30, van 25, default 25 km/h. -/
def speedFor (vehicle : String) : ℚ :=
  if vehicle = "bike" then 15
  else if vehicle = "motorcycle" then 25
  else if vehicle = "car" then 30
  else if vehicle = "van" then 25
  else 25

/-- Two-decimal rounding over the reals, for `parseFloat(distance.toFixed(2))`
in the ETA route. -/
noncomputable def round2R (x : ℝ) : ℝ :=
  (⌊x * 100 + 1 / 2⌋ : ℝ) / 100

/-- Successful payload of the ETA route.  `eta` and the clock are epoch
milliseconds, `now + estimatedMinutes * 60000` in the source. -/
structure EtaInfo where
  eta : ℤ
  estimatedMinutes : ℤ
  distance : ℝ
  status : OrderStatus
  courierLat : ℚ
  courierLng : ℚ

/-- The two non-404 responses of `GET /tracking/:orderNumber/eta`. -/
inductive EtaResponse
  | courierUnknown (eta : Option ℕ) (status : OrderStatus)
  | ok (info : EtaInfo)

/-- The `GET /tracking/:orderNumber/eta` handler.  `courier` is the populated
courier document (`populate('courier', 'currentLocation vehicle')`); when it
is absent or carries no known location the route answers with the original
estimate and the message "Courier location not available", otherwise
`estimatedMinutes = ceil(haversine / speed * 60)` and
`eta = now + estimatedMinutes * 60000`. -/
noncomputable def etaOrder (o : Order) (courier : Option User) (now : ℤ) :
    EtaResponse :=
  match courier with
  | none => .courierUnknown o.estimatedDelivery o.status
  | some c =>
    match c.currentLocation with
    | none => .courierUnknown o.estimatedDelivery o.status
    | some loc =>
      let distance := haversineKm (loc.lat : ℝ) (loc.lng : ℝ)
        (o.deliveryLocation.coordinates.lat : ℝ)
        (o.deliveryLocation.coordinates.lng : ℝ)
      let minutes : ℤ := ⌈distance / ((speedFor c.vehicle : ℚ) : ℝ) * 60⌉
      .ok ⟨now + minutes * 60000, minutes, round2R distance, o.status,
        loc.lat, loc.lng⟩

/-- One inbound request that may touch an order's tracking sequence, used to
quantify over arbitrary operation sequences. -/
inductive TrackOp
  | assign (caller : User)
  | updateStatus (caller : User) (requested : OrderStatus)
      (notes : Option String) (location : Option Coord)
  | rate (caller : User) (ratedProfile : User) (score : ℕ)
      (feedback : Option String)
  | cancel (caller : User) (reason : Option String)
  | reportLoc (caller : User) (lat lng : ℚ)
  | customUpdate (caller : User) (notesText : String) (location : Option Coord)
  | uploadImage (caller : User) (imageUrl : String) (description : Option String)

/-- The order resulting from one request handled at time `now`; a rejected
request leaves the stored order untouched. -/
def applyTrackOp (o : Order) (op : TrackOp) (now : ℕ) : Order :=
  match op with
  | .assign c =>
    match assignOrder o c now with | .ok o' => o' | .error _ => o
  | .updateStatus c r n l =>
    match updateStatusOrder o c r n l now with | .ok o' => o' | .error _ => o
  | .rate c p s f =>
    match rateOrder o c p s f with | .ok (o', _) => o' | .error _ => o
  | .cancel c r =>
    match cancelOrder o c r now with | .ok o' => o' | .error _ => o
  | .reportLoc c la ln =>
    match reportLocation o c la ln now with | .ok (o', _) => o' | .error _ => o
  | .customUpdate c n l =>
    match addCustomUpdate o c n l now with | .ok o' => o' | .error _ => o
  | .uploadImage c u d =>
    match uploadProof o c u d now with | .ok o' => o' | .error _ => o

/-- Sequential handling of a list of timestamped requests. -/
def runTrackOps (o : Order) : List (TrackOp × ℕ) → Order
  | [] => o
  | (op, t) :: rest => runTrackOps (applyTrackOp o op t) rest

/-- The timestamps of an order's tracking sequence, in stored order. -/
def trackTimes (o : Order) : List ℕ :=
  o.tracking.map fun e => e.timestamp

/-- Two claim attempts on the same order under the interleaving
read₁, read₂, save₁, save₂, which the source admits: the assign route runs
`Order.findById` (an unconditional read), decides on that snapshot, and
persists with `order.save()`, which carries no status or version condition
for this write set.  Both handlers therefore decide against the same snapshot
`db`, and the later save overwrites the earlier one.  Returns both responses
and the final stored order. -/
def concurrentClaim2 (db : Order) (c1 c2 : User) (now : ℕ) :
    Except ApiError Order × Except ApiError Order × Order :=
  let r1 := assignOrder db c1 now
  let r2 := assignOrder db c2 now
  let db1 := match r1 with | .ok o' => o' | .error _ => db
  let db2 := match r2 with | .ok o' => o' | .error _ => db1
  (r1, r2, db2)

/-! Concrete fixtures used by the closed theorems and witnesses. -/

/-- Empty per-order rating record. -/
def emptyRating : OrderRating := ⟨none, none, none, none⟩

/-- A freshly created order: `pending`, no courier, one initial tracking
entry. -/
def pendingOrder : Order :=
  { orderNumber := "CR123456001"
    customer := "cust1"
    courier := none
    pickupLocation :=
      ⟨⟨"1 Main St", "Springfield", "IL", "62701"⟩, ⟨10, 20⟩,
        "Alice", "5551230001", none⟩
    deliveryLocation :=
      ⟨⟨"2 Oak Ave", "Springfield", "IL", "62701"⟩, ⟨0, 0⟩,
        "Bob", "5551230002", none⟩
    packageDetails := ⟨"Documents", 1, none, false, "documents"⟩
    status := .pending
    priority := .standard
    pricing := ⟨5, 0, 0, 5⟩
    estimatedPickup := some 100
    estimatedDelivery := some 200
    actualPickup := none
    actualDelivery := none
    tracking := [⟨.pending, 0, none,
      some "Order created and waiting for courier assignment"⟩]
    rating := emptyRating
    paymentStatus := "pending"
    paymentMethod := "cash"
    images := []
    notes := none }

/-- An available courier with a known position. -/
def courierOne : User := ⟨"c1", "Carla", .courier, "bike", true, some ⟨0, 0, 0⟩, 0, 0⟩

/-- A second available courier, distinct from the first. -/
def courierTwo : User := ⟨"c2", "Dave", .courier, "car", true, none, 0, 0⟩

/-- A courier whose `isAvailable` flag is off. -/
def offDutyCourier : User := ⟨"c3", "Eve", .courier, "van", false, none, 0, 0⟩

/-- The customer who owns `pendingOrder`. -/
def customerUser : User := ⟨"cust1", "Frank", .customer, "", false, none, 0, 0⟩

/-- The stored profile of courier `c1` before a rating lands: average 4.5
over 2 ratings. -/
def courierProfileBefore : User := ⟨"c1", "Carla", .courier, "bike", true, none, 9 / 2, 2⟩

/-- `pendingOrder` after assignment to courier `c1`. -/
def assignedOrder : Order := { pendingOrder with status := .assigned, courier := some "c1" }

/-- `pendingOrder` in state `picked_up`, served by courier `c1`. -/
def pickedUpOrder : Order := { pendingOrder with status := .picked_up, courier := some "c1" }

/-- `pendingOrder` delivered by courier `c1`. -/
def deliveredOrder : Order := { pendingOrder with status := .delivered, courier := some "c1" }

/-- The rated party's profile average as a handler result exposes it. -/
def ratedAverageOf (r : Except ApiError (Order × Option User)) : Option ℚ :=
  match r with
  | .ok (_, some p) => some p.ratingAverage
  | _ => none

/-- `deliveredOrder` after its customer rates it 4 with no feedback. -/
def ratedOrderAfter : Order :=
  { deliveredOrder with rating := { emptyRating with customerRating := some 4 } }

/-- The courier profile after that rating lands. -/
def ratedProfileAfter : User := applyRating courierProfileBefore 4

/-- C4: every created order's stored pricing has base fare 5.00, distance
fare `round2 (d * 1.50)`, priority fare `round2 2.50` / `round2 5.00` / `0`
for express / urgent / standard, and a total equal to the sum of the three
independently rounded components.  (The source rounds the sum of the
unrounded components, but base and priority fares are exact cent multiples,
so the two orders of operations coincide over `ℚ`.) -/
theorem pricing_components_and_total (d : ℚ) (p : Priority) :
    (calculatePricing d p).baseFare = 5 ∧
    (calculatePricing d p).distanceFare = round2 (d * (3 / 2)) ∧
    (calculatePricing d p).priorityFare =
      (match p with
       | .express => round2 (5 / 2)
       | .urgent => round2 5
       | .standard => 0) ∧
    (calculatePricing d p).totalAmount =
      (calculatePricing d p).baseFare + (calculatePricing d p).distanceFare +
        (calculatePricing d p).priorityFare := by
  have h5 : round2 5 = 5 := by
    have h := round2_cents 500
    norm_num at h
    exact h
  have h25 : round2 (5 * (1 / 2) : ℚ) = 5 / 2 := by
    have h := round2_cents 250
    norm_num at h
    convert h using 2
    norm_num
  cases p with
  | standard =>
    refine ⟨h5, rfl, round2_zero, ?_⟩
    show round2 (5 + d * (3 / 2) + 0) = round2 5 + round2 (d * (3 / 2)) + round2 0
    have harg : (5 : ℚ) + d * (3 / 2) + 0 = d * (3 / 2) + (500 : ℤ) / 100 := by
      push_cast
      ring
    rw [harg, round2_add_cents, h5, round2_zero]
    push_cast
    ring
  | express =>
    refine ⟨h5, rfl, ?_, ?_⟩
    · show round2 (5 * (1 / 2)) = round2 (5 / 2)
      norm_num
    · show round2 (5 + d * (3 / 2) + 5 * (1 / 2)) =
        round2 5 + round2 (d * (3 / 2)) + round2 (5 * (1 / 2))
      have harg : (5 : ℚ) + d * (3 / 2) + 5 * (1 / 2) =
          d * (3 / 2) + (750 : ℤ) / 100 := by
        push_cast
        ring
      rw [harg, round2_add_cents, h5, h25]
      push_cast
      ring
  | urgent =>
    refine ⟨h5, rfl, ?_, ?_⟩
    · show round2 (5 * 1) = round2 5
      norm_num
    · show round2 (5 + d * (3 / 2) + 5 * 1) =
        round2 5 + round2 (d * (3 / 2)) + round2 (5 * 1)
      have harg : (5 : ℚ) + d * (3 / 2) + 5 * 1 =
          d * (3 / 2) + (1000 : ℤ) / 100 := by
        push_cast
        ring
      rw [harg, round2_add_cents, h5]
      have h51 : round2 (5 * 1 : ℚ) = 5 := by
        norm_num [h5]
      rw [h51]
      push_cast
      ring

/-- C3: for an available courier, a claim attempt succeeds exactly when the
order is `pending` with no courier; success sets that courier and status
`assigned` in the same step, and every failure is one of the two
claim-precondition rejections the spec taxonomy calls `AlreadyAssigned`. -/
theorem claim_succeeds_iff_pending_unassigned (o : Order) (c : User) (t : ℕ)
    (hrole : c.role = .courier) (havail : c.isAvailable = true) :
    (isOk (assignOrder o c t) = true ↔ o.status = .pending ∧ o.courier = none) ∧
    (∀ o', assignOrder o c t = .ok o' →
      o'.courier = some c.id ∧ o'.status = .assigned) ∧
    (∀ e, assignOrder o c t = .error e → e.isAlreadyAssigned = true) := by
  by_cases hs : o.status = .pending
  · cases hco : o.courier with
    | none =>
      simp [assignOrder, hrole, havail, hs, hco, isOk, Order.addTrackingUpdate]
    | some cid =>
      simp [assignOrder, hrole, havail, hs, hco, isOk,
        ApiError.isAlreadyAssigned]
  · simp [assignOrder, hrole, havail, hs, isOk, ApiError.isAlreadyAssigned]

/-- Witness for `claim_succeeds_iff_pending_unassigned` at a concrete
pending order and available courier. -/
theorem claim_succeeds_iff_pending_unassigned_witness :
    (courierOne.role = .courier ∧ courierOne.isAvailable = true) ∧
    (isOk (assignOrder pendingOrder courierOne 5) = true ↔
      pendingOrder.status = .pending ∧ pendingOrder.courier = none) :=
  ⟨⟨rfl, rfl⟩,
    (claim_succeeds_iff_pending_unassigned pendingOrder courierOne 5 rfl rfl).1⟩

/-- C9: a claim attempt by a courier whose `isAvailable` flag is off is
rejected with the 400 message "You must be available to accept orders", even
on a pending, unassigned order. -/
theorem unavailable_courier_claim_rejected (o : Order) (c : User) (t : ℕ)
    (hrole : c.role = .courier) (hna : c.isAvailable = false)
    (hs : o.status = .pending) (hc : o.courier = none) :
    assignOrder o c t = .error .courierNotAvailable ∧
    ApiError.message .courierNotAvailable =
      "You must be available to accept orders" := by
  constructor
  · simp [assignOrder, hrole, hna, hs, hc]
  · rfl

/-- Witness for `unavailable_courier_claim_rejected` at a concrete pending
order and off-duty courier. -/
theorem unavailable_courier_claim_rejected_witness :
    (offDutyCourier.role = .courier ∧ offDutyCourier.isAvailable = false ∧
      pendingOrder.status = .pending ∧ pendingOrder.courier = none) ∧
    assignOrder pendingOrder offDutyCourier 5 =
      .error .courierNotAvailable :=
  ⟨⟨rfl, rfl, rfl, rfl⟩,
    (unavailable_courier_claim_rejected pendingOrder offDutyCourier 5
      rfl rfl rfl rfl).1⟩

/-- C1 fails on the code: under the interleaving read₁, read₂, save₁, save₂
— which the check-then-act assign route admits — two distinct available
couriers both receive a success response for the same pending order; the
loser of the race is silently overwritten instead of receiving
`AlreadyAssigned`. -/
theorem concurrent_claims_both_succeed :
    pendingOrder.status = .pending ∧ pendingOrder.courier = none ∧
    courierOne.id ≠ courierTwo.id ∧
    courierOne.isAvailable = true ∧ courierTwo.isAvailable = true ∧
    isOk (concurrentClaim2 pendingOrder courierOne courierTwo 5).1 = true ∧
    isOk (concurrentClaim2 pendingOrder courierOne courierTwo 5).2.1 = true ∧
    (concurrentClaim2 pendingOrder courierOne courierTwo 5).2.2.courier =
      some "c2" := by
  refine ⟨rfl, rfl, ?_, rfl, rfl, rfl, rfl, rfl⟩
  decide

/-- C2 fails on the code: the transition guard
`validTransitions[order.status] && ...` is skipped whenever the current
status has no table entry, so a terminal `delivered` order is moved to
`picked_up` by its courier instead of receiving `InvalidTransition`. -/
theorem terminal_status_transition_accepted :
    deliveredOrder.status = .delivered ∧
    validTransitions .delivered = none ∧
    (updateStatusOrder deliveredOrder courierOne .picked_up none none 7).map
      (fun o' => o'.status) = .ok .picked_up :=
  ⟨rfl, rfl, rfl⟩

/-- C6 fails as stated: the cancel route's own guard is
`['pending', 'assigned'].includes(order.status)`, so a `picked_up` order —
cancellable per the §4.1 table — is rejected with "Order cannot be cancelled
at this stage" even for an authorized caller. -/
theorem cancel_picked_up_rejected :
    pickedUpOrder.status = .picked_up ∧
    pickedUpOrder.customer = customerUser.id ∧
    cancelOrder pickedUpOrder customerUser none 9 =
      .error .cannotCancelAtStage :=
  ⟨rfl, rfl, rfl⟩

/-- C6 amended: for an authorized caller the cancel endpoint succeeds exactly
when the order's status is `pending` or `assigned`; any other status is
rejected with the cancellation-stage error. -/
theorem cancel_succeeds_iff_pending_or_assigned (o : Order) (caller : User)
    (reason : Option String) (t : ℕ)
    (hauth : caller.role = .admin ∨ o.customer = caller.id ∨
      o.courier = some caller.id) :
    (isOk (cancelOrder o caller reason t) = true ↔
      (o.status = .pending ∨ o.status = .assigned)) ∧
    (∀ e, cancelOrder o caller reason t = .error e →
      e = .cannotCancelAtStage) ∧
    (∀ o', cancelOrder o caller reason t = .ok o' →
      o'.status = .cancelled) := by
  by_cases hst : o.status = .pending ∨ o.status = .assigned
  · simp [cancelOrder, hauth, hst, isOk, Order.addTrackingUpdate]
  · simp [cancelOrder, hauth, hst, isOk]

/-- Witness for `cancel_succeeds_iff_pending_or_assigned` at a concrete
assigned order cancelled by its customer. -/
theorem cancel_succeeds_iff_pending_or_assigned_witness :
    (customerUser.role = .admin ∨ assignedOrder.customer = customerUser.id ∨
      assignedOrder.courier = some customerUser.id) ∧
    (isOk (cancelOrder assignedOrder customerUser none 9) = true ↔
      (assignedOrder.status = .pending ∨ assignedOrder.status = .assigned)) :=
  ⟨Or.inr (Or.inl rfl),
    (cancel_succeeds_iff_pending_or_assigned assignedOrder customerUser none 9
      (Or.inr (Or.inl rfl))).1⟩

/-- C5 fails as stated: on a delivered order with the courier's prior profile
at average 4.5 over 2 ratings, a successful customer rating of 4 stores the
rounded value 4.33, not the exact rolling average 13/3. -/
theorem rating_average_not_exact :
    ratedAverageOf
      (rateOrder deliveredOrder customerUser courierProfileBefore 4 none) =
      some (433 / 100) ∧
    (433 / 100 : ℚ) ≠
      (courierProfileBefore.ratingAverage *
          (courierProfileBefore.ratingCount : ℚ) + 4) /
        ((courierProfileBefore.ratingCount : ℚ) + 1) := by
  have hcall : rateOrder deliveredOrder customerUser courierProfileBefore 4
      none = .ok (ratedOrderAfter, some ratedProfileAfter) := rfl
  constructor
  · rw [hcall]
    show some (applyRating courierProfileBefore 4).ratingAverage =
      some (433 / 100)
    have hval : (applyRating courierProfileBefore 4).ratingAverage =
        round2 ((9 / 2 * 2 + 4) / 3) := by
      show round2 ((9 / 2 * (2 : ℕ) + ((4 : ℕ) : ℚ)) / ((2 + 1 : ℕ) : ℚ)) = _
      norm_num
    rw [hval]
    unfold round2
    norm_num
  · show (433 / 100 : ℚ) ≠ (9 / 2 * (2 : ℕ) + 4) / ((2 : ℕ) + 1)
    norm_num

/-- C5 amended: a successful rate call bumps the rated party's count by one
and stores the rolling average `(avg*count + r)/(count+1)` rounded to two
decimal places (`parseFloat(newAverage.toFixed(2))` in the source). -/
theorem rating_updates_profile_rounded (o : Order) (caller p : User)
    (score : ℕ) (fb : Option String) (o' : Order) (p' : User)
    (h : rateOrder o caller p score fb = .ok (o', some p')) :
    p'.ratingCount = p.ratingCount + 1 ∧
    p'.ratingAverage =
      round2 ((p.ratingAverage * (p.ratingCount : ℚ) + (score : ℚ)) /
        ((p.ratingCount : ℚ) + 1)) := by
  have hshape : p' = applyRating p score := by
    unfold rateOrder at h
    repeat' split at h
    any_goals exact Except.noConfusion h
    all_goals
      injection h with h
      injection h with h1 h2
      first
      | exact Option.noConfusion h2
      | (injection h2 with h2; exact h2.symm)
  subst hshape
  refine ⟨rfl, ?_⟩
  show round2 ((p.ratingAverage * (p.ratingCount : ℚ) + (score : ℚ)) /
      ((p.ratingCount + 1 : ℕ) : ℚ)) = _
  push_cast
  rfl

/-- Witness for `rating_updates_profile_rounded` at a concrete delivered
order rated 4 by its customer. -/
theorem rating_updates_profile_rounded_witness :
    rateOrder deliveredOrder customerUser courierProfileBefore 4 none =
      .ok (ratedOrderAfter, some ratedProfileAfter) ∧
    ratedProfileAfter.ratingCount = courierProfileBefore.ratingCount + 1 ∧
    ratedProfileAfter.ratingAverage =
      round2 ((courierProfileBefore.ratingAverage *
          (courierProfileBefore.ratingCount : ℚ) + ((4 : ℕ) : ℚ)) /
        ((courierProfileBefore.ratingCount : ℚ) + 1)) := by
  have hcall : rateOrder deliveredOrder customerUser courierProfileBefore 4
      none = .ok (ratedOrderAfter, some ratedProfileAfter) := rfl
  exact ⟨hcall, rating_updates_profile_rounded deliveredOrder customerUser
    courierProfileBefore 4 none ratedOrderAfter ratedProfileAfter hcall⟩

/-- A successful claim appends exactly one tracking entry stamped now. -/
lemma assignOrder_ok_tracking (o : Order) (c : User) (t : ℕ) (o' : Order)
    (h : assignOrder o c t = .ok o') :
    ∃ e : TrackingEvent, o'.tracking = o.tracking ++ [e] ∧ e.timestamp = t := by
  unfold assignOrder at h
  repeat' split at h
  any_goals exact Except.noConfusion h
  injection h with h
  subst h
  exact ⟨_, rfl, rfl⟩

/-- A successful status update appends exactly one tracking entry stamped
now. -/
lemma updateStatusOrder_ok_tracking (o : Order) (c : User)
    (r : OrderStatus) (n : Option String) (l : Option Coord) (t : ℕ)
    (o' : Order) (h : updateStatusOrder o c r n l t = .ok o') :
    ∃ e : TrackingEvent, o'.tracking = o.tracking ++ [e] ∧ e.timestamp = t := by
  unfold updateStatusOrder at h
  repeat' split at h
  any_goals exact Except.noConfusion h
  all_goals
    injection h with h
    subst h
    exact ⟨_, rfl, rfl⟩

/-- A successful rate call leaves the tracking sequence untouched. -/
lemma rateOrder_ok_tracking (o : Order) (c p : User) (s : ℕ)
    (f : Option String) (o' : Order) (u' : Option User)
    (h : rateOrder o c p s f = .ok (o', u')) :
    o'.tracking = o.tracking := by
  unfold rateOrder at h
  repeat' split at h
  any_goals exact Except.noConfusion h
  all_goals
    injection h with h
    injection h with h1 h2
    subst h1
    rfl

/-- A successful cancellation appends exactly one tracking entry stamped
now. -/
lemma cancelOrder_ok_tracking (o : Order) (c : User) (reason : Option String)
    (t : ℕ) (o' : Order) (h : cancelOrder o c reason t = .ok o') :
    ∃ e : TrackingEvent, o'.tracking = o.tracking ++ [e] ∧ e.timestamp = t := by
  unfold cancelOrder at h
  repeat' split at h
  any_goals exact Except.noConfusion h
  injection h with h
  subst h
  exact ⟨_, rfl, rfl⟩

/-- A successful location report appends exactly one tracking entry stamped
now. -/
lemma reportLocation_ok_tracking (o : Order) (c : User) (la ln : ℚ) (t : ℕ)
    (o' : Order) (u' : User) (h : reportLocation o c la ln t = .ok (o', u')) :
    ∃ e : TrackingEvent, o'.tracking = o.tracking ++ [e] ∧ e.timestamp = t := by
  unfold reportLocation at h
  repeat' split at h
  any_goals exact Except.noConfusion h
  injection h with h
  injection h with h1 h2
  subst h1
  exact ⟨_, rfl, rfl⟩

/-- A successful custom tracking note appends exactly one entry stamped
now. -/
lemma addCustomUpdate_ok_tracking (o : Order) (c : User) (n : String)
    (l : Option Coord) (t : ℕ) (o' : Order)
    (h : addCustomUpdate o c n l t = .ok o') :
    ∃ e : TrackingEvent, o'.tracking = o.tracking ++ [e] ∧ e.timestamp = t := by
  unfold addCustomUpdate at h
  repeat' split at h
  any_goals exact Except.noConfusion h
  all_goals
    dsimp only at h
    injection h with h
    subst h
    exact ⟨_, rfl, rfl⟩

/-- A successful proof upload appends exactly one tracking entry stamped
now. -/
lemma uploadProof_ok_tracking (o : Order) (c : User) (u : String)
    (d : Option String) (t : ℕ) (o' : Order)
    (h : uploadProof o c u d t = .ok o') :
    ∃ e : TrackingEvent, o'.tracking = o.tracking ++ [e] ∧ e.timestamp = t := by
  unfold uploadProof at h
  repeat' split at h
  any_goals exact Except.noConfusion h
  injection h with h
  subst h
  exact ⟨_, rfl, rfl⟩

/-- Every request either leaves the tracking sequence untouched or appends
exactly one entry stamped with the handling time. -/
lemma applyTrackOp_tracking (o : Order) (op : TrackOp) (t : ℕ) :
    (applyTrackOp o op t).tracking = o.tracking ∨
    ∃ e : TrackingEvent,
      (applyTrackOp o op t).tracking = o.tracking ++ [e] ∧ e.timestamp = t := by
  cases op with
  | assign c =>
    cases h : assignOrder o c t with
    | ok o' =>
      right
      simpa [applyTrackOp, h] using assignOrder_ok_tracking o c t o' h
    | error e => left; simp [applyTrackOp, h]
  | updateStatus c r n l =>
    cases h : updateStatusOrder o c r n l t with
    | ok o' =>
      right
      simpa [applyTrackOp, h] using updateStatusOrder_ok_tracking o c r n l t o' h
    | error e => left; simp [applyTrackOp, h]
  | rate c p s f =>
    cases h : rateOrder o c p s f with
    | ok res =>
      left
      obtain ⟨o', u'⟩ := res
      simpa [applyTrackOp, h] using rateOrder_ok_tracking o c p s f o' u' h
    | error e => left; simp [applyTrackOp, h]
  | cancel c r =>
    cases h : cancelOrder o c r t with
    | ok o' =>
      right
      simpa [applyTrackOp, h] using cancelOrder_ok_tracking o c r t o' h
    | error e => left; simp [applyTrackOp, h]
  | reportLoc c la ln =>
    cases h : reportLocation o c la ln t with
    | ok res =>
      right
      obtain ⟨o', u'⟩ := res
      simpa [applyTrackOp, h] using reportLocation_ok_tracking o c la ln t o' u' h
    | error e => left; simp [applyTrackOp, h]
  | customUpdate c n l =>
    cases h : addCustomUpdate o c n l t with
    | ok o' =>
      right
      simpa [applyTrackOp, h] using addCustomUpdate_ok_tracking o c n l t o' h
    | error e => left; simp [applyTrackOp, h]
  | uploadImage c u d =>
    cases h : uploadProof o c u d t with
    | ok o' =>
      right
      simpa [applyTrackOp, h] using uploadProof_ok_tracking o c u d t o' h
    | error e => left; simp [applyTrackOp, h]

/-- C8: across any sequence of handled requests, an order's tracking
sequence only grows by appending — the stored sequence always extends the
original — and, when the handling clock never runs backwards (all prior
entry timestamps and request times are jointly non-decreasing), the stored
timestamps remain non-decreasing. -/
theorem tracking_append_only (o : Order) (ops : List (TrackOp × ℕ))
    (hsort : List.Sorted (· ≤ ·)
      (trackTimes o ++ ops.map fun pr => pr.2)) :
    (∃ added, (runTrackOps o ops).tracking = o.tracking ++ added) ∧
    List.Sorted (· ≤ ·) (trackTimes (runTrackOps o ops)) := by
  induction ops generalizing o with
  | nil =>
    exact ⟨⟨[], by simp [runTrackOps]⟩, by simpa [runTrackOps] using hsort⟩
  | cons hd tl ih =>
    obtain ⟨op, t⟩ := hd
    have hrun : runTrackOps o ((op, t) :: tl) =
        runTrackOps (applyTrackOp o op t) tl := rfl
    rcases applyTrackOp_tracking o op t with hsame | ⟨e, happ, het⟩
    · have htt : trackTimes (applyTrackOp o op t) = trackTimes o := by
        unfold trackTimes
        rw [hsame]
      have hsub : List.Sublist (trackTimes o ++ tl.map fun pr => pr.2)
          (trackTimes o ++ ((op, t) :: tl).map fun pr => pr.2) := by
        simp only [List.map_cons]
        exact List.Sublist.append_left (List.sublist_cons_self _ _) _
      have hsort1 : List.Sorted (· ≤ ·)
          (trackTimes (applyTrackOp o op t) ++ tl.map fun pr => pr.2) := by
        rw [htt]
        exact List.Pairwise.sublist hsub hsort
      obtain ⟨⟨added, haddl⟩, hsorted⟩ := ih (applyTrackOp o op t) hsort1
      refine ⟨⟨added, ?_⟩, ?_⟩
      · rw [hrun, haddl, hsame]
      · rw [hrun]
        exact hsorted
    · have htt : trackTimes (applyTrackOp o op t) = trackTimes o ++ [t] := by
        unfold trackTimes
        rw [happ]
        simp [het]
      have hsort1 : List.Sorted (· ≤ ·)
          (trackTimes (applyTrackOp o op t) ++ tl.map fun pr => pr.2) := by
        rw [htt]
        simpa [List.append_assoc] using hsort
      obtain ⟨⟨added, haddl⟩, hsorted⟩ := ih (applyTrackOp o op t) hsort1
      refine ⟨⟨[e] ++ added, ?_⟩, ?_⟩
      · rw [hrun, haddl, happ, List.append_assoc]
      · rw [hrun]
        exact hsorted

/-- A concrete request sequence: one location report at time 5. -/
def trackOpsSample : List (TrackOp × ℕ) := [(TrackOp.reportLoc courierOne 1 1, 5)]

/-- Witness for `tracking_append_only` on a concrete assigned order whose
single tracking entry is stamped 0 and one location report at time 5. -/
theorem tracking_append_only_witness :
    List.Sorted (· ≤ ·)
      (trackTimes assignedOrder ++ trackOpsSample.map fun pr => pr.2) ∧
    List.Sorted (· ≤ ·)
      (trackTimes (runTrackOps assignedOrder trackOpsSample)) :=
  ⟨by decide, (tracking_append_only assignedOrder trackOpsSample (by decide)).2⟩

/-- C10: a successful location report changes nothing but the courier's
stored position and the order's tracking sequence, which gains exactly one
entry carrying the order's current status; the order's status, courier,
pricing, locations, times, ratings and images are untouched. -/
theorem location_report_frame (o : Order) (c : User) (lat lng : ℚ) (t : ℕ)
    (o' : Order) (u' : User)
    (h : reportLocation o c lat lng t = .ok (o', u')) :
    o' = { o with tracking := o.tracking ++
            [⟨o.status, t, some ⟨lat, lng⟩, some "Location updated"⟩] } ∧
    u' = { c with currentLocation := some ⟨lat, lng, t⟩ } ∧
    o'.status = o.status ∧ o'.courier = o.courier ∧
    o'.pricing = o.pricing ∧ o'.pickupLocation = o.pickupLocation ∧
    o'.deliveryLocation = o.deliveryLocation ∧
    o'.estimatedPickup = o.estimatedPickup ∧
    o'.estimatedDelivery = o.estimatedDelivery ∧
    o'.actualPickup = o.actualPickup ∧
    o'.actualDelivery = o.actualDelivery ∧
    o'.rating = o.rating ∧ o'.images = o.images := by
  unfold reportLocation at h
  repeat' split at h
  any_goals exact Except.noConfusion h
  injection h with h
  injection h with h1 h2
  subst h2
  rw [← h1]
  exact ⟨rfl, rfl, rfl, rfl, rfl, rfl, rfl, rfl, rfl, rfl, rfl, rfl, rfl⟩

/-- The stored order after the concrete location report below. -/
def reportedOrderAfter : Order :=
  { assignedOrder with tracking := assignedOrder.tracking ++
      [⟨.assigned, 7, some ⟨1, 2⟩, some "Location updated"⟩] }

/-- The courier profile after that location report. -/
def reportedUserAfter : User :=
  { courierOne with currentLocation := some ⟨1, 2, 7⟩ }

/-- Witness for `location_report_frame` at a concrete assigned order and its
courier reporting position (1, 2) at time 7. -/
theorem location_report_frame_witness :
    reportLocation assignedOrder courierOne 1 2 7 =
      .ok (reportedOrderAfter, reportedUserAfter) ∧
    reportedOrderAfter = { assignedOrder with tracking :=
      assignedOrder.tracking ++
        [⟨assignedOrder.status, 7, some ⟨1, 2⟩, some "Location updated"⟩] } ∧
    reportedUserAfter =
      { courierOne with currentLocation := some ⟨1, 2, 7⟩ } ∧
    reportedOrderAfter.status = assignedOrder.status ∧
    reportedOrderAfter.courier = assignedOrder.courier ∧
    reportedOrderAfter.pricing = assignedOrder.pricing ∧
    reportedOrderAfter.pickupLocation = assignedOrder.pickupLocation ∧
    reportedOrderAfter.deliveryLocation = assignedOrder.deliveryLocation ∧
    reportedOrderAfter.estimatedPickup = assignedOrder.estimatedPickup ∧
    reportedOrderAfter.estimatedDelivery = assignedOrder.estimatedDelivery ∧
    reportedOrderAfter.actualPickup = assignedOrder.actualPickup ∧
    reportedOrderAfter.actualDelivery = assignedOrder.actualDelivery ∧
    reportedOrderAfter.rating = assignedOrder.rating ∧
    reportedOrderAfter.images = assignedOrder.images := by
  have hcall : reportLocation assignedOrder courierOne 1 2 7 =
      .ok (reportedOrderAfter, reportedUserAfter) := rfl
  exact ⟨hcall, location_report_frame assignedOrder courierOne 1 2 7
    reportedOrderAfter reportedUserAfter hcall⟩

/-- The haversine distance from a point to itself is zero. -/
lemma haversineKm_self (lat lng : ℝ) : haversineKm lat lng lat lng = 0 := by
  unfold haversineKm atan2
  norm_num [Real.sin_zero, Real.sqrt_zero, Real.sqrt_one, Real.arctan_zero]

/-- C7: for an order whose courier's presence is known, the ETA route
answers `estimatedMinutes = ceil(haversine(courier, delivery) / speed * 60)`
with the speed from the fixed per-vehicle table (bike 15, motorcycle 25,
car 30, van 25, default 25) and `eta = now + estimatedMinutes` minutes (in
epoch milliseconds); a courier exactly at the delivery coordinate gets 0
minutes whatever the vehicle. -/
theorem eta_formula (o : Order) (c : User) (loc : CourierLoc) (now : ℤ)
    (hl : c.currentLocation = some loc) :
    etaOrder o (some c) now = .ok
      ⟨now + ⌈haversineKm (loc.lat : ℝ) (loc.lng : ℝ)
            (o.deliveryLocation.coordinates.lat : ℝ)
            (o.deliveryLocation.coordinates.lng : ℝ) /
            ((speedFor c.vehicle : ℚ) : ℝ) * 60⌉ * 60000,
        ⌈haversineKm (loc.lat : ℝ) (loc.lng : ℝ)
            (o.deliveryLocation.coordinates.lat : ℝ)
            (o.deliveryLocation.coordinates.lng : ℝ) /
            ((speedFor c.vehicle : ℚ) : ℝ) * 60⌉,
        round2R (haversineKm (loc.lat : ℝ) (loc.lng : ℝ)
            (o.deliveryLocation.coordinates.lat : ℝ)
            (o.deliveryLocation.coordinates.lng : ℝ)),
        o.status, loc.lat, loc.lng⟩ ∧
    speedFor "bike" = 15 ∧ speedFor "motorcycle" = 25 ∧
    speedFor "car" = 30 ∧ speedFor "van" = 25 ∧
    (∀ v, v ≠ "bike" → v ≠ "motorcycle" → v ≠ "car" → v ≠ "van" →
      speedFor v = 25) ∧
    ((loc.lat : ℝ) = (o.deliveryLocation.coordinates.lat : ℝ) →
      (loc.lng : ℝ) = (o.deliveryLocation.coordinates.lng : ℝ) →
      ⌈haversineKm (loc.lat : ℝ) (loc.lng : ℝ)
          (o.deliveryLocation.coordinates.lat : ℝ)
          (o.deliveryLocation.coordinates.lng : ℝ) /
          ((speedFor c.vehicle : ℚ) : ℝ) * 60⌉ = 0) := by
  refine ⟨?_, rfl, rfl, rfl, rfl, ?_, ?_⟩
  · simp [etaOrder, hl]
  · intro v h1 h2 h3 h4
    simp [speedFor, h1, h2, h3, h4]
  · intro h1 h2
    rw [h1, h2, haversineKm_self]
    simp

/-- Witness for `eta_formula`: the concrete courier at the delivery
coordinate of the concrete order gets a 0-minute estimate. -/
theorem eta_formula_witness :
    courierOne.currentLocation = some ⟨0, 0, 0⟩ ∧
    ⌈haversineKm ((0 : ℚ) : ℝ) ((0 : ℚ) : ℝ)
        (assignedOrder.deliveryLocation.coordinates.lat : ℝ)
        (assignedOrder.deliveryLocation.coordinates.lng : ℝ) /
        ((speedFor courierOne.vehicle : ℚ) : ℝ) * 60⌉ = 0 := by
  have h := eta_formula assignedOrder courierOne ⟨0, 0, 0⟩ 1000 rfl
  exact ⟨rfl, h.2.2.2.2.2.2 rfl rfl⟩

end Courier
